import Mathlib

/-!
Verification of the OpenCensus instrumentation for Gin and Gorm
(`pkg/ocgin` and `pkg/ocgorm`): a shallow embedding of the
instrumentation code, followed by theorems about its behaviour.

Machine integers are modelled as `Nat`/`Int` (no arithmetic in this code
ever overflows a 64-bit integer on realistic inputs, and no claim is about
overflow).  Go's `nil`-able values are modelled as `Option`; a run-time
panic (dereferencing a nil error) is modelled as an explicit result
constructor.  Calls into the OpenCensus library (`trace.StartSpan`,
`stats.Record`, `tag.New`, ...) are modelled by recording, purely, the data
the code hands to the library: which span is started with which parent and
links, which measurements are recorded under which tag mutators.
-/

namespace OcModel

/-- A tag mutation, as produced by `tag.Upsert` / `tag.Insert` of the
OpenCensus `tag` package.  `upsert` always sets the key, `insert` sets it
only when absent. -/
inductive Mutator where
  | upsert (key value : String)
  | insert (key value : String)
  deriving Repr, DecidableEq

/-- Lookup in a tag map (association list, first binding wins). -/
def tagMapGet (m : List (String × String)) (k : String) : Option String :=
  match m with
  | [] => none
  | (k2, v) :: rest => if k2 = k then some v else tagMapGet rest k

/-- Apply one tag mutator to a tag map. -/
def applyMutator (m : List (String × String)) (mu : Mutator) : List (String × String) :=
  match mu with
  | .upsert k v => (k, v) :: m.filter (fun p => p.1 ≠ k)
  | .insert k v => if (tagMapGet m k).isSome then m else (k, v) :: m

/-- Embeds `tag.New ctx muts...`: apply the mutators left to right to the tag map
held by the context. -/
def tagNew (m : List (String × String)) (muts : List Mutator) : List (String × String) :=
  muts.foldl applyMutator m

/-- The measure identities used by `ocgin` and `ocgorm` (the `stats.Measure`
values; only the identity matters for the claims). -/
inductive MeasureName where
  | serverRequestCount
  | serverLatency
  | serverResponseBytes
  | serverRequestBytes
  | queryCount
  | openConnections
  | idleConnections
  | activeConnections
  | waitCount
  | waitDuration
  | idleClosed
  | lifetimeClosed
  deriving Repr, DecidableEq

/-- One measurement handed to `stats.Record` / `stats.RecordWithTags`
(float-valued measures carry their value scaled to an integer grid; no
claim depends on fractional values). -/
structure Measurement where
  name : MeasureName
  value : Int
  deriving Repr, DecidableEq

/-- One call to `stats.Record`/`stats.RecordWithTags`: the tag mutators
applied at record time (empty for plain `stats.Record`), the tag map of
the context it records against, and the measurements. -/
structure Recorded where
  mutators : List Mutator
  ctx : List (String × String)
  ms : List Measurement
  deriving Repr, DecidableEq

end OcModel

namespace Ocgin

open OcModel

/-- Tag keys of the `ochttp` package used by `ocgin` (string identities
from go.opencensus.io/plugin/ochttp). -/
def hostKeyName : String := "http_server_host"

def pathKeyName : String := "http_server_path"

def methodKeyName : String := "http_server_method"

def routeKeyName : String := "http_server_route"

def statusCodeKeyName : String := "http_server_status"

/-- The data of an incoming HTTP request that `ocgin` reads.
`hasBody = false` models `Request.Body == nil`; `contentLength` is Go's
`Request.ContentLength` (`-1` when the length is unknown).  `ctxTags` is
the tag map carried by the request's context on entry. -/
structure Request where
  urlHost : String
  urlPath : String
  method : String
  userAgent : String
  hasBody : Bool
  contentLength : Int
  ctxTags : List (String × String)
  deriving Repr, DecidableEq

/-- A remote span context extracted from propagation headers. -/
structure SpanContext where
  traceID : Nat
  spanID : Nat
  deriving Repr, DecidableEq

/-- Parent linkage of a started span: `remoteParent sc` models
`trace.StartSpanWithRemoteParent`, `newRoot` models `trace.StartSpan`
starting a span with a fresh trace identity (no parent in this process's
incoming context). -/
inductive ParentLinkage where
  | newRoot
  | remoteParent (sc : SpanContext)
  deriving Repr, DecidableEq

/-- A link attached with `span.AddLink`; `linkTypeChild` is
`trace.LinkTypeChild`. -/
structure SpanLink where
  traceID : Nat
  spanID : Nat
  linkTypeChild : Bool
  deriving Repr, DecidableEq

/-- Sampling choice carried in `trace.StartOptions`. -/
inductive Sampler where
  | defaultSampler
  | always
  | never
  deriving Repr, DecidableEq

structure StartOptions where
  sampler : Sampler
  deriving Repr, DecidableEq

/-- The span-side data `Handler.startTrace` hands to the trace library:
name, parent linkage, links, the request attributes, and the sampler it
passes in the start options. -/
structure StartedSpan where
  name : String
  parent : ParentLinkage
  links : List SpanLink
  attributes : List (String × String)
  sampler : Sampler
  deriving Repr, DecidableEq

/-- Result of `Handler.startTrace`: either no span at all (the returned end
function is a no-op closure) or a started server span whose `End` the
returned closure will call. -/
inductive TraceResult where
  | noSpan
  | span (s : StartedSpan)
  deriving Repr, DecidableEq

/-- The `ocgin.Handler` configuration.  `propagation = none` models a nil
`Propagation` field (the package-level B3 default format is then used);
a custom format is modelled by the extraction function it induces. -/
structure Handler where
  propagation : Option (Request → Option SpanContext)
  startOptions : StartOptions
  getStartOptions : Option (Request → StartOptions)
  isPublicEndpoint : Bool
  formatSpanName : Option (Request → String)

/-- Embeds `isHealthOrMetricsEndpoint` from `pkg/ocgin/trace.go`. -/
def isHealthOrMetricsEndpoint (path : String) : Bool :=
  if path = "/healthz" || path = "/_ah/health" || path = "/metrics" then
    true
  else
    false

/-- Embeds `spanNameFromURL` from `pkg/ocgin/trace.go`. -/
def spanNameFromURL (r : Request) : String :=
  r.urlPath

/-- Embeds `requestAttrs` from `pkg/ocgin/trace.go`. -/
def requestAttrs (r : Request) : List (String × String) :=
  [("http.path", r.urlPath), ("http.host", r.urlHost),
   ("http.method", r.method), ("http.user_agent", r.userAgent)]

/-- Embeds `Handler.extractSpanContext` from `pkg/ocgin/handler.go`; `defaultFmt`
models the package-level `defaultFormat` (B3). -/
def Handler.extractSpanContext (defaultFmt : Request → Option SpanContext)
    (h : Handler) (r : Request) : Option SpanContext :=
  match h.propagation with
  | none => defaultFmt r
  | some p => p r

/-- Embeds `Handler.startTrace` from `pkg/ocgin/handler.go`, as the span-start
data it passes to the trace library (returning `noSpan` where the Go code
returns the no-op end function without starting a span). -/
def Handler.startTrace (defaultFmt : Request → Option SpanContext)
    (h : Handler) (r : Request) : TraceResult :=
  if isHealthOrMetricsEndpoint r.urlPath then
    .noSpan
  else
    let name :=
      match h.formatSpanName with
      | none => spanNameFromURL r
      | some f => f r
    let startOpts :=
      match h.getStartOptions with
      | none => h.startOptions
      | some g => g r
    let base : StartedSpan :=
      match h.extractSpanContext defaultFmt r with
      | some sc =>
        if !h.isPublicEndpoint then
          { name := name, parent := .remoteParent sc, links := [],
            attributes := [], sampler := startOpts.sampler }
        else
          { name := name, parent := .newRoot,
            links := [⟨sc.traceID, sc.spanID, true⟩],
            attributes := [], sampler := startOpts.sampler }
      | none =>
        { name := name, parent := .newRoot, links := [],
          attributes := [], sampler := startOpts.sampler }
    .span { base with attributes := requestAttrs r }

/-- The fields of `trackingResponseWriter` that the stats path reads
(`ctx` is the tag map produced by `tag.New` in `startStats`; time is an
abstract clock in integer ticks). -/
structure Track where
  ctx : List (String × String)
  reqSize : Int
  start : Int
  deriving Repr, DecidableEq

/-- The accumulator bound to the request context under `addedTagsKey`
(`addedTags` in `pkg/ocgin/handler.go`). -/
structure AddedTags where
  t : List Mutator
  deriving Repr, DecidableEq

/-- Embeds `Handler.startStats` from `pkg/ocgin/handler.go`: builds the tagged
context, the tracking writer state, and immediately records the
`ServerRequestCount` measurement against that context.  Note the Go
struct's zero value: `reqSize` stays `0` when the body is non-nil but
`ContentLength` is not positive. -/
def Handler.startStats (r : Request) (handlerName : String) (now : Int) :
    Track × Recorded :=
  let ctx := tagNew r.ctxTags
    [.upsert hostKeyName r.urlHost,
     .upsert pathKeyName r.urlPath,
     .upsert methodKeyName r.method,
     .insert routeKeyName handlerName]
  let track : Track :=
    { ctx := ctx,
      start := now,
      reqSize :=
        if !r.hasBody then -1
        else if r.contentLength > 0 then r.contentLength
        else 0 }
  (track, { mutators := [], ctx := ctx, ms := [⟨.serverRequestCount, 1⟩] })

/-- The body of `trackingResponseWriter.end` (the function passed to
`endOnce.Do`): reads the writer's final status (`status0`, where `0`
means never set) and size, defaults the status to 200, and records
latency, response size and — when `reqSize ≥ 0` — request size, under the
accumulated tag mutators preceded by the status-code tag. -/
def trackingEnd (t : Track) (tags : AddedTags) (status0 : Nat) (size : Nat)
    (now : Int) : Recorded :=
  let status := if status0 = 0 then 200 else status0
  let m : List Measurement :=
    [⟨.serverLatency, now - t.start⟩, ⟨.serverResponseBytes, Int.ofNat size⟩]
  let m := if t.reqSize ≥ 0 then m ++ [⟨.serverRequestBytes, t.reqSize⟩] else m
  { mutators := Mutator.upsert statusCodeKeyName (toString status) :: tags.t,
    ctx := t.ctx,
    ms := m }

/-- State of the `endOnce sync.Once` guard together with a count of how
many times the guarded emission body has actually run. -/
structure EndOnceState where
  ranOnce : Bool
  bodyRuns : Nat
  deriving Repr, DecidableEq

/-- One invocation of `trackingResponseWriter.end`: the `sync.Once`
contract — the wrapped body runs only if the guard has never fired. -/
def endInvoke (s : EndOnceState) : EndOnceState :=
  if s.ranOnce then s else { ranOnce := true, bodyRuns := s.bodyRuns + 1 }

/-- Iterates `n` successive invocations of `end`. -/
def endInvokeTimes : Nat → EndOnceState → EndOnceState
  | 0, s => s
  | n + 1, s => endInvokeTimes n (endInvoke s)

/-- Exit paths of the downstream handler chain invoked by `c.Next()`. -/
inductive ExitPath where
  | normal
  | abort
  deriving Repr, DecidableEq

/-- Outcome of one `Handler.HandlerFunc` execution: the end-guard state
and how many times the deferred `traceEnd` closure ran. -/
structure HandlerOutcome where
  endState : EndOnceState
  traceEndCalls : Nat
  deriving Repr, DecidableEq

/-- The finalization structure of `Handler.HandlerFunc`
(`pkg/ocgin/handler.go`): the downstream chain may invoke the
response-finalizing path `downstreamEndCalls` times and exits along
`exit`; Go's `defer` semantics then runs `statsEnd(&tags)` (one more
`end` invocation) and `traceEnd()` exactly once each, on every exit
path. -/
def handlerFuncFinalize (downstreamEndCalls : Nat) (exit : ExitPath) :
    HandlerOutcome :=
  let s := endInvokeTimes downstreamEndCalls { ranOnce := false, bodyRuns := 0 }
  match exit with
  | .normal => { endState := endInvoke s, traceEndCalls := 1 }
  | .abort => { endState := endInvoke s, traceEndCalls := 1 }

/-- The state of a request's `gin.Context` that the route-tag decorator
touches: the context tag map and the `addedTags` accumulator installed by
`Handler.HandlerFunc` (absent when the middleware is not in the chain). -/
structure GinContext where
  ctxTags : List (String × String)
  accumulator : Option (List Mutator)
  deriving Repr, DecidableEq

/-- The inner closure built by `WithRouteTag` (`pkg/ocgin/route.go`):
pushes the route tag into the context tag map, calls the wrapped handler
on the updated context, and returns the `addRoute` mutation list. -/
def withRouteTagInner (handler : GinContext → GinContext) (route : String)
    (c : GinContext) : GinContext × List Mutator :=
  let addRoute : List Mutator := [.upsert routeKeyName route]
  let c2 := { c with ctxTags := tagNew c.ctxTags addRoute }
  (handler c2, addRoute)

/-- Embeds `taggedHandlerFunc.HandlerFunc` (`pkg/ocgin/route.go`): run the
tagged handler, then append the returned mutations to the `addedTags`
accumulator if one is bound to the request context. -/
def taggedHandlerFunc (h : GinContext → GinContext × List Mutator)
    (c : GinContext) : GinContext :=
  let (c2, tags) := h c
  match c2.accumulator with
  | some acc => { c2 with accumulator := some (acc ++ tags) }
  | none => c2

/-- Embeds `WithRouteTag` from `pkg/ocgin/route.go`. -/
def WithRouteTag (handler : GinContext → GinContext) (route : String) :
    GinContext → GinContext :=
  taggedHandlerFunc (withRouteTagInner handler route)

end Ocgin

namespace Ocgorm

open OcModel

/-- Checks whether `pat` occurs at the start of `hay` (character lists). -/
def charsStartWith : List Char → List Char → Bool
  | _, [] => true
  | [], _ :: _ => false
  | a :: as, b :: bs => a = b && charsStartWith as bs

/-- Checks whether `pat` occurs anywhere inside `hay` (character lists). -/
def charsContain : List Char → List Char → Bool
  | [], pat => pat.isEmpty
  | a :: as, pat => charsStartWith (a :: as) pat || charsContain as pat

/-- Go's `strings.Contains`. -/
def strContains (hay pat : String) : Bool :=
  charsContain hay.toList pat.toList

/-- An error carried by a Gorm scope.  `recordNotFound` models
`gorm.ErrRecordNotFound` (the value `gorm.IsRecordNotFoundError` tests
for); `other msg` any other error, with its `Error()` message. -/
inductive GormErr where
  | recordNotFound
  | other (msg : String)
  deriving Repr, DecidableEq

/-- Go's `err.Error()` for the modelled errors
(`gorm.ErrRecordNotFound.Error() == "record not found"`). -/
def GormErr.message : GormErr → String
  | .recordNotFound => "record not found"
  | .other msg => msg

/-- Embeds `gorm.IsRecordNotFoundError`. -/
def isRecordNotFoundError : GormErr → Bool
  | .recordNotFound => true
  | .other _ => false

/-- Span status codes used by `ocgorm` (`trace.StatusCodeOK = 0`,
`trace.StatusCodeUnknown = 2`, `trace.StatusCodeNotFound = 5`). -/
def statusCodeOK : Int := 0

def statusCodeUnknown : Int := 2

def statusCodeNotFound : Int := 5

structure TraceStatus where
  code : Int
  message : String
  deriving Repr, DecidableEq

/-- A span as `ocgorm` drives it: start data plus the terminal state set
by `endTrace` (`status` and `ended`). -/
structure GormSpan where
  name : String
  kindClient : Bool
  hasParent : Bool
  sampler : Ocgin.Sampler
  attributes : List (String × String)
  status : Option TraceStatus
  ended : Bool
  deriving Repr, DecidableEq

/-- The context value threaded through a Gorm operation: the current span
(`trace.FromContext`) and the tag map. -/
structure GormCtx where
  span : Option GormSpan
  tags : List (String × String)
  deriving Repr, DecidableEq

/-- Embeds `context.Background()`. -/
def backgroundCtx : GormCtx := { span := none, tags := [] }

/-- The part of a `gorm.Scope` the callbacks touch: the two scope keys
(`_opencensusContext`, `_opencensusSpan`), the operation error, and the
table/SQL metadata.  A stored value that is absent or fails the type
assertion is `none`. -/
structure Scope where
  storedCtx : Option GormCtx
  storedSpan : Option GormSpan
  err : Option GormErr
  tableName : String
  sql : String
  deriving Repr, DecidableEq

/-- The `callbacks` configuration built by `RegisterCallbacks`
(`pkg/ocgorm/callbacks.go`). -/
structure Callbacks where
  allowRoot : Bool
  query : Bool
  startOptions : Ocgin.StartOptions
  defaultAttributes : List (String × String)
  deriving Repr, DecidableEq

/-- Embeds `callbacks.startTrace` from `pkg/ocgorm/callbacks.go`: skip entirely
when there is no parent span and `allowRoot` is off; otherwise start a
root client span (on a fresh background context) or a child span (leaving
the context unchanged, per the discarded context return of
`trace.StartSpan`), attach attributes, and store the span in the scope. -/
def startTraceG (c : Callbacks) (ctx : GormCtx) (scope : Scope)
    (operation : String) : GormCtx × Scope :=
  let parentSpan := ctx.span
  if parentSpan.isNone && !c.allowRoot then
    (ctx, scope)
  else
    let base : GormSpan :=
      match parentSpan with
      | none =>
        { name := "gorm:" ++ operation, kindClient := true, hasParent := false,
          sampler := c.startOptions.sampler, attributes := [],
          status := none, ended := false }
      | some _ =>
        { name := "gorm:" ++ operation, kindClient := false, hasParent := true,
          sampler := .defaultSampler, attributes := [],
          status := none, ended := false }
    let attrs :=
      c.defaultAttributes ++ [("gorm.table", scope.tableName)] ++
        (if c.query then [("resource.name", scope.sql)] else [])
    let span := { base with attributes := attrs }
    let ctx2 :=
      match parentSpan with
      | none => { backgroundCtx with span := some span }
      | some _ => ctx
    (ctx2, { scope with storedSpan := some span })

/-- Embeds `callbacks.startStats` from `pkg/ocgorm/callbacks.go`. -/
def startStatsG (ctx : GormCtx) (scope : Scope) (operation : String) :
    GormCtx :=
  { ctx with
      tags := tagNew ctx.tags
        [.upsert "gorm.operation" operation,
         .upsert "gorm.table" scope.tableName] }

/-- Embeds `callbacks.before` from `pkg/ocgorm/callbacks.go`. -/
def beforeG (c : Callbacks) (scope : Scope) (operation : String) : Scope :=
  let ctx := scope.storedCtx.getD backgroundCtx
  let (ctx, scope) := startTraceG c ctx scope operation
  let ctx := startStatsG ctx scope operation
  { scope with storedCtx := some ctx }

/-- Embeds `callbacks.endTrace` from `pkg/ocgorm/callbacks.go`: no-op without a
stored span; otherwise classify the scope error into the span status
(`record not found` → NOT_FOUND, any other error → UNKNOWN, no error →
the zero status, i.e. OK) and end the span. -/
def endTraceG (scope : Scope) : Scope :=
  match scope.storedSpan with
  | none => scope
  | some span =>
    let status : TraceStatus :=
      match scope.err with
      | none => { code := statusCodeOK, message := "" }
      | some e =>
        { code := if isRecordNotFoundError e then statusCodeNotFound
                  else statusCodeUnknown,
          message := e.message }
    { scope with
        storedSpan := some { span with status := some status, ended := true } }

/-- Embeds `callbacks.endStats` from `pkg/ocgorm/callbacks.go`: on error, or
without a usable stored context, record nothing; otherwise record one
`QueryCount` measurement of 1 against the stored context. -/
def endStatsG (scope : Scope) : List Recorded :=
  if scope.err.isSome then []
  else
    match scope.storedCtx with
    | none => []
    | some ctx => [{ mutators := [], ctx := ctx.tags, ms := [⟨.queryCount, 1⟩] }]

/-- Embeds `callbacks.after` from `pkg/ocgorm/callbacks.go`. -/
def afterG (scope : Scope) : Scope × List Recorded :=
  let scope := endTraceG scope
  (scope, endStatsG scope)

/-- State shared by the stop closure returned from `RecordStats`
(`pkg/ocgorm/stats.go`): the `closeOnce sync.Once` flag, whether the
`done` channel has been closed, how many times `close(done)` actually
executed, and whether a close on an already-closed channel occurred
(which panics in Go). -/
structure StopState where
  onceDone : Bool
  doneClosed : Bool
  closeCalls : Nat
  panicked : Bool
  deriving Repr, DecidableEq

def initialStopState : StopState :=
  { onceDone := false, doneClosed := false, closeCalls := 0, panicked := false }

/-- Embeds `close(done)`: closing an already-closed channel panics. -/
def closeDone (s : StopState) : StopState :=
  if s.doneClosed then
    { s with closeCalls := s.closeCalls + 1, panicked := true }
  else
    { s with closeCalls := s.closeCalls + 1, doneClosed := true }

/-- One invocation of the `fnStop` closure returned by `RecordStats`:
`closeOnce.Do(func() { close(done) })`. -/
def fnStop (s : StopState) : StopState :=
  if s.onceDone then s else closeDone { s with onceDone := true }

/-- Iterates `n` successive invocations of `fnStop`, from any combination of call
sites (the closure's state is shared). -/
def fnStopTimes : Nat → StopState → StopState
  | 0, s => s
  | n + 1, s => fnStopTimes n (fnStop s)

/-- The fields of `sql.DBStats` read by the polling loop. -/
structure DBStats where
  openConnections : Nat
  idle : Nat
  inUse : Nat
  waitCount : Int
  waitDurationNs : Int
  maxIdleClosed : Int
  maxLifetimeClosed : Int
  deriving Repr, DecidableEq

/-- Outcome of one tick of the `RecordStats` polling loop. -/
inductive TickResult where
  | recorded (r : Recorded)
  | stopped
  | nilErrorPanic
  deriving Repr, DecidableEq

/-- The `stats.Record` call of the polling loop, with the wait duration in
nanoseconds divided down to whole milliseconds (the fractional part is
immaterial to every claim). -/
def pollRecord (st : DBStats) : Recorded :=
  { mutators := [], ctx := [],
    ms :=
      [⟨.openConnections, Int.ofNat st.openConnections⟩,
       ⟨.idleConnections, Int.ofNat st.idle⟩,
       ⟨.activeConnections, Int.ofNat st.inUse⟩,
       ⟨.waitCount, st.waitCount⟩,
       ⟨.waitDuration, st.waitDurationNs / 1000000⟩,
       ⟨.idleClosed, st.maxIdleClosed⟩,
       ⟨.lifetimeClosed, st.maxLifetimeClosed⟩] }

/-- One `ticker.C` tick of the goroutine started by `RecordStats`
(`pkg/ocgorm/stats.go`): when the snapshot reports zero open connections
the code evaluates `strings.Contains(err.Error(), "database is closed")`
on the error returned by `db.DB().Ping()` with no nil check, so a
successful ping (`pingErr = none`) dereferences a nil error —
modelled as `nilErrorPanic`. -/
def recordStatsTick (st : DBStats) (pingErr : Option String) : TickResult :=
  if st.openConnections = 0 then
    match pingErr with
    | none => .nilErrorPanic
    | some msg =>
      if strContains msg "database is closed" then .stopped
      else .recorded (pollRecord st)
  else .recorded (pollRecord st)

end Ocgorm

section ExampleInputs

open OcModel

/-- A pool snapshot with zero open connections. -/
def exPoolStats : Ocgorm.DBStats :=
  { openConnections := 0, idle := 0, inUse := 0, waitCount := 0,
    waitDurationNs := 0, maxIdleClosed := 0, maxLifetimeClosed := 0 }

/-- A freshly started Gorm span (no status, not yet ended). -/
def exGormSpan : Ocgorm.GormSpan :=
  { name := "gorm:query", kindClient := false, hasParent := true,
    sampler := .defaultSampler, attributes := [("gorm.table", "people")],
    status := none, ended := false }

/-- A scope whose operation failed with `gorm.ErrRecordNotFound`. -/
def exScopeNotFound : Ocgorm.Scope :=
  { storedCtx := some { span := none, tags := [("gorm.operation", "query")] },
    storedSpan := some exGormSpan, err := some .recordNotFound,
    tableName := "people", sql := "SELECT 1" }

/-- A scope whose operation failed with a generic error. -/
def exScopeOtherErr : Ocgorm.Scope :=
  { exScopeNotFound with err := some (.other "broken pipe") }

/-- A scope whose operation succeeded. -/
def exScopeOk : Ocgorm.Scope :=
  { exScopeNotFound with err := none }

/-- A scope before any callback has run on it. -/
def exFreshScope : Ocgorm.Scope :=
  { storedCtx := none, storedSpan := none, err := none,
    tableName := "people", sql := "SELECT 1" }

/-- A plain incoming request. -/
def exRequest : Ocgin.Request :=
  { urlHost := "example.com", urlPath := "/people", method := "GET",
    userAgent := "curl", hasBody := false, contentLength := 0, ctxTags := [] }

/-- A remote span context carried in propagation headers. -/
def exSpanContext : Ocgin.SpanContext := { traceID := 7, spanID := 3 }

/-- A handler whose propagation format extracts `exSpanContext`, with the
public-endpoint flag off. -/
def exHandlerPrivate : Ocgin.Handler :=
  { propagation := some (fun _ => some exSpanContext),
    startOptions := { sampler := .always },
    getStartOptions := none,
    isPublicEndpoint := false,
    formatSpanName := none }

/-- The same handler with the public-endpoint flag on. -/
def exHandlerPublic : Ocgin.Handler :=
  { exHandlerPrivate with isPublicEndpoint := true }

/-- A request context as the route-tag decorator sees it, with the
accumulator installed by `Handler.HandlerFunc`. -/
def exGinContext : Ocgin.GinContext :=
  { ctxTags := [("http_server_method", "GET")], accumulator := some [] }

/-- A callbacks configuration with root spans disallowed (the default). -/
def exCallbacks : Ocgorm.Callbacks :=
  { allowRoot := false, query := false,
    startOptions := { sampler := .defaultSampler }, defaultAttributes := [] }

end ExampleInputs

section Theorems

open OcModel

/-- If a once-guard has already fired, further invocations do nothing. -/
theorem endInvokeTimes_fixed (n : Nat) (s : Ocgin.EndOnceState)
    (h : s.ranOnce = true) : Ocgin.endInvokeTimes n s = s := by
  induction n with
  | zero => rfl
  | succ n ih =>
    have : Ocgin.endInvoke s = s := by
      simp [Ocgin.endInvoke, h]
    simp [Ocgin.endInvokeTimes, this, ih]

/-- Any positive number of `end` invocations on a fresh guard runs the
emission body exactly once. -/
theorem endInvoke_after_times (k : Nat) :
    Ocgin.endInvoke (Ocgin.endInvokeTimes k { ranOnce := false, bodyRuns := 0 }) =
      { ranOnce := true, bodyRuns := 1 } := by
  cases k with
  | zero => rfl
  | succ k =>
    have h1 : Ocgin.endInvoke { ranOnce := false, bodyRuns := 0 } =
        ({ ranOnce := true, bodyRuns := 1 } : Ocgin.EndOnceState) := rfl
    have h2 : Ocgin.endInvokeTimes (k + 1) { ranOnce := false, bodyRuns := 0 } =
        ({ ranOnce := true, bodyRuns := 1 } : Ocgin.EndOnceState) := by
      simp [Ocgin.endInvokeTimes, h1, endInvokeTimes_fixed]
    rw [h2]
    rfl

/-- Claim C1: for every request processed by `Handler.HandlerFunc`, the
finalization logic executes exactly once: on every exit path of the
downstream chain, and for any number of downstream invocations of the
response-finalizing path, the deferred `traceEnd` runs exactly once and
the one-shot-guarded emission body of `trackingResponseWriter.end` runs
exactly once. -/
theorem handlerFunc_finalizes_exactly_once (k : Nat) (exit : Ocgin.ExitPath) :
    (Ocgin.handlerFuncFinalize k exit).endState.bodyRuns = 1 ∧
    (Ocgin.handlerFuncFinalize k exit).endState.ranOnce = true ∧
    (Ocgin.handlerFuncFinalize k exit).traceEndCalls = 1 := by
  cases exit <;>
    simp [Ocgin.handlerFuncFinalize, endInvoke_after_times]

/-- Once `fnStop` has run, further invocations do nothing. -/
theorem fnStopTimes_fixed (n : Nat) (s : Ocgorm.StopState)
    (h : s.onceDone = true) : Ocgorm.fnStopTimes n s = s := by
  induction n with
  | zero => rfl
  | succ n ih =>
    have : Ocgorm.fnStop s = s := by
      simp [Ocgorm.fnStop, h]
    simp [Ocgorm.fnStopTimes, this, ih]

/-- Claim C9: the stop function returned by `RecordStats` is idempotent:
for every positive number of invocations, the `done` channel is closed
exactly once and no invocation panics. -/
theorem recordStats_stop_idempotent (n : Nat) :
    Ocgorm.fnStopTimes (n + 1) Ocgorm.initialStopState =
      { onceDone := true, doneClosed := true, closeCalls := 1,
        panicked := false } := by
  have h1 : Ocgorm.fnStop Ocgorm.initialStopState =
      ({ onceDone := true, doneClosed := true, closeCalls := 1,
         panicked := false } : Ocgorm.StopState) := rfl
  simp [Ocgorm.fnStopTimes, h1, fnStopTimes_fixed]

/-- Claim C10 (refuting evaluation): on a tick where the pool snapshot
reports zero open connections and the probe ping succeeds, the loop body
dereferences the nil ping error and panics, while a failing ping with the
"database is closed" message stops the poller as intended. -/
theorem recordStatsTick_nil_error_panics :
    Ocgorm.recordStatsTick exPoolStats none = .nilErrorPanic ∧
    Ocgorm.recordStatsTick exPoolStats (some "sql: database is closed") =
      .stopped := by
  constructor
  · rfl
  · decide

/-- Claim C4: `startTrace` creates a span and returns a real end function
for every path except exactly `/healthz`, `/_ah/health` and `/metrics`,
for which it creates no span — whatever the handler configuration, in
particular whatever its sampler. -/
theorem startTrace_noSpan_iff_health_or_metrics
    (defaultFmt : Ocgin.Request → Option Ocgin.SpanContext)
    (h : Ocgin.Handler) (r : Ocgin.Request) :
    Ocgin.Handler.startTrace defaultFmt h r = .noSpan ↔
      (r.urlPath = "/healthz" ∨ r.urlPath = "/_ah/health" ∨
        r.urlPath = "/metrics") := by
  by_cases h1 : r.urlPath = "/healthz" <;>
    by_cases h2 : r.urlPath = "/_ah/health" <;>
      by_cases h3 : r.urlPath = "/metrics" <;>
        simp [Ocgin.Handler.startTrace, Ocgin.isHealthOrMetricsEndpoint,
          h1, h2, h3]

/-- Claim C5: when a valid remote span context is extracted from the
propagation headers (and the path is actually traced), a non-public
handler starts the server span with that remote context as parent and no
links, while a public handler starts a span with a new trace identity and
attaches the remote context as a child-type link. -/
theorem startTrace_remote_parent_or_link
    (defaultFmt : Ocgin.Request → Option Ocgin.SpanContext)
    (h : Ocgin.Handler) (r : Ocgin.Request) (sc : Ocgin.SpanContext)
    (hext : Ocgin.Handler.extractSpanContext defaultFmt h r = some sc)
    (hpath : Ocgin.isHealthOrMetricsEndpoint r.urlPath = false) :
    ∃ s : Ocgin.StartedSpan,
      Ocgin.Handler.startTrace defaultFmt h r = .span s ∧
      (h.isPublicEndpoint = false →
        s.parent = .remoteParent sc ∧ s.links = []) ∧
      (h.isPublicEndpoint = true →
        s.parent = .newRoot ∧
        s.links = [{ traceID := sc.traceID, spanID := sc.spanID,
                     linkTypeChild := true }]) := by
  cases hpub : h.isPublicEndpoint <;>
    simp [Ocgin.Handler.startTrace, hpath, hext, hpub]

/-- Claim C5 witness: a request carrying a remote span context against the
non-public and the public example handlers. -/
theorem startTrace_remote_parent_or_link_witness :
    (∃ s : Ocgin.StartedSpan,
      Ocgin.Handler.startTrace (fun _ => none) exHandlerPrivate exRequest =
        .span s ∧
      (exHandlerPrivate.isPublicEndpoint = false →
        s.parent = .remoteParent exSpanContext ∧ s.links = []) ∧
      (exHandlerPrivate.isPublicEndpoint = true →
        s.parent = .newRoot ∧
        s.links = [{ traceID := exSpanContext.traceID,
                     spanID := exSpanContext.spanID,
                     linkTypeChild := true }])) ∧
    (∃ s : Ocgin.StartedSpan,
      Ocgin.Handler.startTrace (fun _ => none) exHandlerPublic exRequest =
        .span s ∧
      (exHandlerPublic.isPublicEndpoint = false →
        s.parent = .remoteParent exSpanContext ∧ s.links = []) ∧
      (exHandlerPublic.isPublicEndpoint = true →
        s.parent = .newRoot ∧
        s.links = [{ traceID := exSpanContext.traceID,
                     spanID := exSpanContext.spanID,
                     linkTypeChild := true }])) :=
  ⟨startTrace_remote_parent_or_link (fun _ => none) exHandlerPrivate exRequest
      exSpanContext rfl (by decide),
   startTrace_remote_parent_or_link (fun _ => none) exHandlerPublic exRequest
      exSpanContext rfl (by decide)⟩

/-- Claim C2 counterexample: at a concrete request, the record call made
by `trackingResponseWriter.end` contains no request-count measurement
(that measurement is recorded by `startStats` instead), refuting the
claim that the end function emits it. -/
theorem trackingEnd_no_request_count :
    MeasureName.serverRequestCount ∉
      (Ocgin.trackingEnd { ctx := [], reqSize := 5, start := 0 } ⟨[]⟩
        200 10 3).ms.map Measurement.name := by
  decide

/-- Claim C2 as amended: when the end function fires it defaults an unset
status to 200, and emits the latency and response-size measurements —
plus the request-size measurement exactly when the request size was known
— in a single record call carrying the accumulated tag snapshot preceded
by a status-code tag; the request-count measurement is recorded once by
`startStats` when tracking begins, not by the end function. -/
theorem trackingEnd_emission (t : Ocgin.Track) (tags : Ocgin.AddedTags)
    (status0 size : Nat) (now : Int) (r : Ocgin.Request) (hn : String)
    (n2 : Int) :
    (Ocgin.trackingEnd t tags status0 size now).mutators =
      .upsert Ocgin.statusCodeKeyName
        (toString (if status0 = 0 then 200 else status0)) :: tags.t ∧
    (Ocgin.trackingEnd t tags status0 size now).ms.map Measurement.name =
      [.serverLatency, .serverResponseBytes] ++
        (if t.reqSize ≥ 0 then [.serverRequestBytes] else []) ∧
    MeasureName.serverRequestCount ∉
      (Ocgin.trackingEnd t tags status0 size now).ms.map Measurement.name ∧
    (Ocgin.Handler.startStats r hn n2).2.ms = [⟨.serverRequestCount, 1⟩] := by
  refine ⟨rfl, ?_, ?_, rfl⟩
  · by_cases hge : t.reqSize ≥ 0 <;> simp [Ocgin.trackingEnd, hge]
  · by_cases hge : t.reqSize ≥ 0 <;> simp [Ocgin.trackingEnd, hge]

/-- Claim C3 (failing evaluation): for a request with a non-nil body whose
`ContentLength` is `-1` (length unknown), `startStats` leaves `reqSize`
at the zero value `0`, and the end function therefore emits a
request-size measurement of `0` instead of omitting it as unknown. -/
theorem unknown_length_emitted_as_zero :
    ((Ocgin.Handler.startStats
        { urlHost := "example.com", urlPath := "/people", method := "POST",
          userAgent := "curl", hasBody := true, contentLength := -1,
          ctxTags := [] } "h" 0).1).reqSize = 0 ∧
    (⟨.serverRequestBytes, 0⟩ : Measurement) ∈
      (Ocgin.trackingEnd
        ((Ocgin.Handler.startStats
          { urlHost := "example.com", urlPath := "/people", method := "POST",
            userAgent := "curl", hasBody := true, contentLength := -1,
            ctxTags := [] } "h" 0).1) ⟨[]⟩ 200 0 0).ms := by
  decide

/-- Claim C6: after a data-access operation with a stored span, an error
classified as record-not-found sets the span status code to NOT_FOUND,
any other error sets the generic UNKNOWN code (both carrying the error's
message), and the query counter is not incremented; an operation without
error increments the query counter exactly once (whenever the before hook
stored a context). -/
theorem after_error_classification (scope : Ocgorm.Scope)
    (span : Ocgorm.GormSpan) (hspan : scope.storedSpan = some span) :
    (∀ e, scope.err = some e → Ocgorm.isRecordNotFoundError e = true →
      (Ocgorm.afterG scope).1.storedSpan =
        some { span with
                 status := some { code := Ocgorm.statusCodeNotFound,
                                  message := e.message },
                 ended := true } ∧
      (Ocgorm.afterG scope).2 = []) ∧
    (∀ e, scope.err = some e → Ocgorm.isRecordNotFoundError e = false →
      (Ocgorm.afterG scope).1.storedSpan =
        some { span with
                 status := some { code := Ocgorm.statusCodeUnknown,
                                  message := e.message },
                 ended := true } ∧
      (Ocgorm.afterG scope).2 = []) ∧
    (scope.err = none →
      (Ocgorm.afterG scope).2.map (fun x => x.ms) =
        if scope.storedCtx.isSome then [[⟨.queryCount, 1⟩]] else []) := by
  refine ⟨?_, ?_, ?_⟩
  · intro e he hnf
    simp [Ocgorm.afterG, Ocgorm.endTraceG, Ocgorm.endStatsG, hspan, he, hnf]
  · intro e he hnf
    simp [Ocgorm.afterG, Ocgorm.endTraceG, Ocgorm.endStatsG, hspan, he, hnf]
  · intro he
    cases hctx : scope.storedCtx <;>
      simp [Ocgorm.afterG, Ocgorm.endTraceG, Ocgorm.endStatsG, hspan, he, hctx]

/-- Claim C6 witness: a record-not-found failure and a clean success on
the example scopes. -/
theorem after_error_classification_witness :
    ((Ocgorm.afterG exScopeNotFound).1.storedSpan =
      some { exGormSpan with
               status := some { code := Ocgorm.statusCodeNotFound,
                                message := "record not found" },
               ended := true } ∧
      (Ocgorm.afterG exScopeNotFound).2 = []) ∧
    ((Ocgorm.afterG exScopeOk).2.map (fun x => x.ms) =
      [[⟨.queryCount, 1⟩]]) := by
  have h1 := after_error_classification exScopeNotFound exGormSpan rfl
  have h2 := after_error_classification exScopeOk exGormSpan rfl
  exact ⟨h1.1 .recordNotFound rfl rfl, h2.2.2 rfl⟩

/-- Claim C7: the before hook stores a span in the scope exactly when the
scope's context carries a parent span or root spans are allowed; when
neither holds, no span is started by `before` and the after hook has no
span to end. -/
theorem before_span_iff_parent_or_allowRoot (c : Ocgorm.Callbacks)
    (scope : Ocgorm.Scope) (operation : String)
    (hnospan : scope.storedSpan = none) :
    ((Ocgorm.beforeG c scope operation).storedSpan.isSome ↔
      ((scope.storedCtx.getD Ocgorm.backgroundCtx).span.isSome ∨
        c.allowRoot = true)) ∧
    ((scope.storedCtx.getD Ocgorm.backgroundCtx).span = none →
      c.allowRoot = false →
      (Ocgorm.beforeG c scope operation).storedSpan = none ∧
      (Ocgorm.afterG (Ocgorm.beforeG c scope operation)).1.storedSpan =
        none) := by
  cases hsp : (scope.storedCtx.getD Ocgorm.backgroundCtx).span with
  | none =>
    cases har : c.allowRoot <;>
      simp [Ocgorm.beforeG, Ocgorm.startTraceG, Ocgorm.afterG,
        Ocgorm.endTraceG, Ocgorm.endStatsG, hsp, har, hnospan]
  | some p =>
    simp [Ocgorm.beforeG, Ocgorm.startTraceG, Ocgorm.afterG,
      Ocgorm.endTraceG, Ocgorm.endStatsG, hsp, hnospan]

/-- Claim C7 witness: a fresh scope with no attached context under the
default (root spans disallowed) configuration. -/
theorem before_span_iff_parent_or_allowRoot_witness :
    ((Ocgorm.beforeG exCallbacks exFreshScope "query").storedSpan.isSome ↔
      ((exFreshScope.storedCtx.getD Ocgorm.backgroundCtx).span.isSome ∨
        exCallbacks.allowRoot = true)) ∧
    ((exFreshScope.storedCtx.getD Ocgorm.backgroundCtx).span = none →
      exCallbacks.allowRoot = false →
      (Ocgorm.beforeG exCallbacks exFreshScope "query").storedSpan = none ∧
      (Ocgorm.afterG
        (Ocgorm.beforeG exCallbacks exFreshScope "query")).1.storedSpan =
        none) :=
  before_span_iff_parent_or_allowRoot exCallbacks exFreshScope "query" rfl

/-- Upserting a key and then looking it up yields the upserted value. -/
theorem tagMapGet_upsert (m : List (String × String)) (k v : String) :
    tagMapGet (applyMutator m (.upsert k v)) k = some v := by
  simp [applyMutator, tagMapGet]

/-- Claim C8: the handler wrapped by `WithRouteTag` is invoked on a
context whose tag map already carries the route tag, the same mutation is
appended to the request's tag accumulator, and the final tag set emitted
by the measurement recorder's end function therefore includes the route
tag. -/
theorem withRouteTag_pushes_and_records
    (handler : Ocgin.GinContext → Ocgin.GinContext) (route : String)
    (c : Ocgin.GinContext) (acc : List Mutator)
    (hacc : (handler { c with
        ctxTags := tagNew c.ctxTags
          [.upsert Ocgin.routeKeyName route] }).accumulator = some acc) :
    tagMapGet (tagNew c.ctxTags [.upsert Ocgin.routeKeyName route])
      Ocgin.routeKeyName = some route ∧
    (Ocgin.WithRouteTag handler route c).accumulator =
      some (acc ++ [.upsert Ocgin.routeKeyName route]) ∧
    ∀ (t : Ocgin.Track) (status0 size : Nat) (now : Int),
      Mutator.upsert Ocgin.routeKeyName route ∈
        (Ocgin.trackingEnd t ⟨acc ++ [.upsert Ocgin.routeKeyName route]⟩
          status0 size now).mutators := by
  refine ⟨?_, ?_, ?_⟩
  · exact tagMapGet_upsert c.ctxTags Ocgin.routeKeyName route
  · simp [Ocgin.WithRouteTag, Ocgin.taggedHandlerFunc,
      Ocgin.withRouteTagInner, hacc]
  · intro t status0 size now
    simp [Ocgin.trackingEnd]

/-- Claim C8 witness: the identity handler wrapped for route `/people` on
the example request context. -/
theorem withRouteTag_pushes_and_records_witness :
    tagMapGet (tagNew exGinContext.ctxTags
        [.upsert Ocgin.routeKeyName "/people"]) Ocgin.routeKeyName =
      some "/people" ∧
    (Ocgin.WithRouteTag id "/people" exGinContext).accumulator =
      some ([] ++ [Mutator.upsert Ocgin.routeKeyName "/people"]) ∧
    Mutator.upsert Ocgin.routeKeyName "/people" ∈
      (Ocgin.trackingEnd { ctx := [], reqSize := -1, start := 0 }
        ⟨[] ++ [Mutator.upsert Ocgin.routeKeyName "/people"]⟩
        0 0 0).mutators := by
  have h := withRouteTag_pushes_and_records id "/people" exGinContext [] rfl
  exact ⟨h.1, h.2.1, h.2.2 { ctx := [], reqSize := -1, start := 0 } 0 0 0⟩

end Theorems
